import Mathlib

/-!
# A verification development for DMpy (src/DMpy/model.py, src/DMpy/utils.py)

This file gives a shallow embedding, in Lean 4, of the parts of the DMpy
model-composition and execution engine that the specification's claims are
about, and proves or refutes each claim against that embedding.

Conventions used throughout:

* Python runtime errors are represented by the inductive `PyErr`; fallible
  Python code is embedded as `Except PyErr _`.
* Machine floats are embedded as exact numbers: the recurrence engine is
  polymorphic in the element type (instantiated at `ℤ` for concrete
  evaluations, whose data are integers), parameter/prior bookkeeping uses
  `ℚ`, and fit statistics (which involve `log`) use `ℝ`.
* The theano `scan` primitive is embedded per its documented semantics: a
  sequence registered with `taps=[-1]` supplies `seq[t-1]` to the step
  function at trial `t`, the iteration range being trimmed to the trial
  indices at which every tap is valid (trials `1 .. N-1` for a length-`N`
  sequence), and each output whose `outputs_info` entry is not `None` is
  carried into the next step.  The arrays here carry a single run (the run
  dimension of the source is a broadcast dimension that the claims never
  exercise with more than one run).
-/

/-- The Python exception kinds raised by the embedded code. -/
inductive PyErr : Type where
  | valueError (msg : String)
  | typeError (msg : String)
  | attributeError (msg : String)
  | zeroDivisionError
deriving DecidableEq, Repr

instance {ε α : Type} [DecidableEq ε] [DecidableEq α] : DecidableEq (Except ε α) := fun x y =>
  match x, y with
  | .ok a, .ok b => if h : a = b then .isTrue (by rw [h]) else .isFalse (by simp [h])
  | .ok _, .error _ => .isFalse (by simp)
  | .error _, .ok _ => .isFalse (by simp)
  | .error a, .error b => if h : a = b then .isTrue (by rw [h]) else .isFalse (by simp [h])

/-- `true` iff the computation did not raise. -/
def exOk {ε β : Type} : Except ε β → Bool
  | .ok _ => true
  | .error _ => false

/-- A Python function object as the recurrence engine sees it: its call arity
(`none` models a variadic `*args` signature, as produced by
`utils.function_wrapper`) and its body, mapping the argument list to the
list of returned values. -/
structure PyFun (α : Type) where
  arity : Option Nat
  run : List α → List α

/-- The message of the `ValueError` theano's `scan` raises when the step
function does not return one value per `outputs_info` entry.  `get_value`
(model.py line 185) recognises this error by the substring
"None as outputs_info"; the embedding recognises it by this constant. -/
def scan_outputs_info_msg : String :=
  "Please provide None as outputs_info for any output that does not feed back into scan"

/-- One step of theano `scan`: the inner function receives the sequence
slices, then the carried recurrent outputs, then the non-sequences, in that
order; the call fails like Python if the arity does not match, and fails
like theano if the function does not return one value per `outputs_info`
entry. -/
def scan_step {α : Type} (f : PyFun α) (slices carried nonseq : List α)
    (n_outs : Nat) : Except PyErr (List α) :=
  let args := slices ++ carried ++ nonseq
  let arity_ok := match f.arity with
    | none => true
    | some k => args.length == k
  if arity_ok then
    let outs := f.run args
    if outs.length == n_outs then .ok outs
    else .error (.valueError scan_outputs_info_msg)
  else .error (.typeError "inner function called with wrong number of arguments")

/-- The iteration of theano `scan`: fold the step function over the per-step
slice lists, carrying the first `n_dynamic` outputs (the outputs whose
`outputs_info` entry is not `None`; in `get_value` these always come first)
into the next step, and record every step's full output list. -/
def scan_go {α : Type} (f : PyFun α) (n_outs n_dynamic : Nat) (nonseq : List α) :
    List (List α) → List α → Except PyErr (List (List α))
  | [], _ => .ok []
  | s :: rest, carried =>
    match scan_step f s carried nonseq n_outs with
    | .error e => .error e
    | .ok outs =>
      match scan_go f n_outs n_dynamic nonseq rest (outs.take n_dynamic) with
      | .error e => .error e
      | .ok tail => .ok (outs :: tail)

/-- Regroup the per-step output lists into per-output sequences, the shape in
which theano `scan` returns its result (one tensor of shape `(steps, ...)`
per `outputs_info` entry). -/
def per_output {α : Type} [Inhabited α] (n_outs : Nat) (rows : List (List α)) :
    List (List α) :=
  (List.range n_outs).map (fun i => rows.map (fun r => r.getD i default))

/-- theano `scan`, specialised to the calls `get_value` makes: per-step slice
lists, an `outputs_info` list whose non-`None` entries (the dynamic initial
values) come first, and non-sequences. -/
def scan_theano {α : Type} [Inhabited α] (f : PyFun α) (slices_seq : List (List α))
    (outputs_info : List (Option α)) (nonseq : List α) :
    Except PyErr (List (List α)) :=
  let init := outputs_info.filterMap id
  match scan_go f outputs_info.length init.length nonseq slices_seq init with
  | .error e => .error e
  | .ok rows => .ok (per_output outputs_info.length rows)

/-- `utils.function_wrapper` (utils.py lines 269-278): builds the "initial"
one-step model used to seed trial 0.  `wrapped(*args)` is variadic; its body
is `outs = [args[0]] * n_returns; outs[0:n_reused] = args[1:n_reused + 1]`,
embedded with Python's list-slice-assignment semantics.  Note that the
wrapped function never calls `f`; it only shuffles its arguments.  The call
sites always pass at least the two sequence slices, so `args` is never
empty (an empty `args` would raise `IndexError` on `args[0]`; the embedding
returns `[]` on that unreachable case). -/
def function_wrapper {α : Type} (_f : PyFun α) (n_returns n_reused : Nat) : PyFun α :=
  { arity := none
    run := fun args =>
      match args with
      | [] => []
      | a0 :: rest =>
        let outs := List.replicate n_returns a0
        rest.take n_reused ++ outs.drop n_reused }

/-- The configuration error `get_value` raises when it recognises theano's
outputs_info mismatch (model.py lines 184-189). -/
def dynamic_mismatch_msg : String :=
  "Mismatch between number of dynamic outputs and number of dynamic inputs. Make sure function outputs and inputs match (i.e. all dynamic inputs have a corresponding returned value, and make sure dynamic parameters are correctly set to be dynamic and static parameters are set to be static"

/-- The `try/except ValueError` wrapper around the two `scan` calls in
`get_value`: a `ValueError` whose message is theano's outputs_info
complaint is replaced by the configuration error; every other error
propagates unchanged (`except ValueError` does not catch `TypeError`). -/
def convert_scan_err {β : Type} : Except PyErr β → Except PyErr β
  | .error (.valueError m) =>
    if m = scan_outputs_info_msg then .error (.valueError dynamic_mismatch_msg)
    else .error (.valueError m)
  | other => other

/-- `_PyMCModel.get_value` (model.py lines 151-211), the recurrence engine,
for a single run.  `n_learning_returns` is the return count introspected by
`utils.n_returns`; `outputs_info` is the dynamic initial values followed by
`None` padding (`[None] * (n_learning_returns - n_dynamic)`, empty when the
subtraction is negative, exactly like the Python list product).  The main
scan registers both the outcome sequence and the `T.ones_like` placeholder
sequence with `taps=[-1]`, so trial `t` receives `[x[t-1], 1]` for
`t = 1 .. N-1`; the initial scan runs one step on `[x[0], 1]` with the
wrapped model.  The main scan's outputs are truncated to the dynamic count
and the initial record is concatenated in front of each.  When no
observation model is configured the probability is the first of these
sequences; this embedding returns all of them.  (For a model with a single
`outputs_info` entry theano hands back a bare tensor rather than a list and
the normalisation `if not len(value)` at line 193 would `len()` a symbolic
tensor; the embedding takes the charitable reading in which the result is
always the list of per-output sequences.) -/
def get_value {α : Type} [Inhabited α] [One α] (learning_model : PyFun α)
    (n_learning_returns n_dynamic : Nat) (dynamic_params static_params : List α)
    (outcomes : List α) : Except PyErr (List (List α)) :=
  let outputs_info : List (Option α) :=
    dynamic_params.map some ++ List.replicate (n_learning_returns - n_dynamic) none
  let main_slices := outcomes.dropLast.map (fun o => [o, 1])
  let init_slices : List (List α) := match outcomes with
    | [] => []
    | o :: _ => [[o, 1]]
  let initial_model := function_wrapper learning_model n_learning_returns n_dynamic
  match convert_scan_err (scan_theano learning_model main_slices outputs_info static_params) with
  | .error e => .error e
  | .ok value =>
    match convert_scan_err (scan_theano initial_model init_slices outputs_info static_params) with
    | .error e => .error e
    | .ok value0 =>
      let value := value.take n_dynamic
      let value0 := value0.take n_dynamic
      .ok ((value0.zip value).map (fun p => p.1 ++ p.2))

/-- The trivial learning model of the fold-correctness claim,
`f(state, outcome) = (state + outcome,)`, written as the engine calls it:
the scan passes the outcome slice, the ones placeholder slice, and the
carried state, so the signature is `f(o, t, v)` returning `(v + o,)`. -/
def c2_learning_model : PyFun ℤ :=
  { arity := some 3
    run := fun args => [args.getD 2 0 + args.getD 0 0] }

/-- A learning model whose return convention re-enters two outputs,
`f(o, t, v, w) = (v + o, w + o)`, to be declared with only one dynamic
parameter: the declared dynamic count (1) differs from the function's
reused-output count (2), yet the total argument count (2 sequences +
1 carried + 1 static = 4) and the total return count (2) both match, so no
check can fire. -/
def c3_learning_model : PyFun ℤ :=
  { arity := some 4
    run := fun args => [args.getD 2 0 + args.getD 0 0, args.getD 3 0 + args.getD 0 0] }

/-! ## Data loading (`utils.load_data`, lines 169-209) and the `fit` entry point's
use of it (model.py line 384). -/

/-- A response file after `pd.read_csv`: the column names and, for each row,
its `Subject` and `Response` cells (the two columns `load_data` requires). -/
structure DataFile where
  columns : List String
  rows : List (String × ℚ)
deriving DecidableEq

/-- The dynamically-typed values that appear in `load_data`'s returned tuple. -/
inductive PyVal : Type where
  | subjectList (subjects : List String)
  | responseMatrix (data : List (List ℚ))
  | simsFrame (first_trial_subjects : List String)
deriving DecidableEq

/-- The parameter list of `def load_data(data_file):` in utils.py (line 169):
a single positional parameter and no keyword arguments. -/
def load_data_arglist : List String := ["data_file"]

/-- The `Subject` value of each subject's first-trial row (rows at indices
`0, n_trials, 2*n_trials, ...`), the rows `load_data` keeps for the `sims`
frame.  Because the comprehension building `sim_columns` also matches the
`Subject` column itself, `sim_columns` is never empty and `sims` is never
`None`. -/
def first_trial_subjects (d : DataFile) (n_subjects n_trials : Nat) : List String :=
  (List.range n_subjects).map (fun k => ((d.rows.getD (k * n_trials) ("", 0)).1))

/-- `utils.load_data` (lines 169-209).  It validates the required columns,
requires an equal trial count per subject, and returns the **three**-element
tuple `(subjects, data, sims)` of its final `return` statement (line 209).
The pivot to a `(subject, trial)` response matrix is embedded as grouping
the responses of each distinct subject in order of first appearance
(`np.unique`'s sorting of the subject ids only permutes the rows and is not
observed by any claim). -/
def load_data (d : DataFile) : Except PyErr (List PyVal) :=
  if ¬("Subject" ∈ d.columns ∧ "Response" ∈ d.columns) then
    .error (.valueError "Data file must contain the following columns: Subject, Response")
  else if ((d.rows.map Prod.fst).eraseDups).length = 0 then
    .error .zeroDivisionError
  else if d.rows.length % ((d.rows.map Prod.fst).eraseDups).length ≠ 0 then
    .error (.attributeError "Unequal number of trials across subjects")
  else
    let subjects := (d.rows.map Prod.fst).eraseDups
    let n_trials := d.rows.length / subjects.length
    let sims := PyVal.simsFrame (first_trial_subjects d subjects.length n_trials)
    let data := subjects.map (fun s => (d.rows.filter (fun r => r.1 = s)).map Prod.snd)
    .ok [PyVal.subjectList subjects, PyVal.responseMatrix data, sims]

/-- The keyword arguments `DMModel.fit` passes at its `load_data` call site,
`load_data(responses, exclude=exclude)` (model.py line 384). -/
def fit_load_call_keywords : List String := ["exclude"]

/-- The call `load_data(responses, exclude=exclude)` under Python's
call-binding rules: a keyword argument that is not a parameter of the
callee raises `TypeError` before the body runs. -/
def call_load_data (d : DataFile) : Except PyErr (List PyVal) :=
  if fit_load_call_keywords.all (fun k => load_data_arglist.contains k) then load_data d
  else .error (.typeError "load_data() got an unexpected keyword argument exclude")

/-- The tuple unpacking on model.py line 384,
`subjects, n_runs, responses, self.sims, loaded_outcomes = load_data(...)`:
it succeeds only on a five-element tuple and otherwise raises the Python 2
unpacking `ValueError`. -/
def fit_unpack5 (t : List PyVal) : Except PyErr (PyVal × PyVal × PyVal × PyVal × PyVal) :=
  match t with
  | [a, b, c, d, e] => .ok (a, b, c, d, e)
  | _ => .error (.valueError "need more than 3 values to unpack")

/-- The data-loading stage of every `DMModel.fit` call: the call into the
loader followed by the five-way unpacking. -/
def fit_load_stage (d : DataFile) : Except PyErr (PyVal × PyVal × PyVal × PyVal × PyVal) :=
  (call_load_data d).bind fit_unpack5

/-- The response/outcome trial-length guard of `fit` (model.py lines
412-414): `responses.shape[1] != outcomes.shape[0]` raises the unequal-
lengths `ValueError`.  In the source this guard sits after the loader call
and its unpacking, so it is only reachable if those succeed. -/
def check_response_outcome_lengths (responses : List (List ℚ)) (outcomes : List ℚ) :
    Except PyErr Unit :=
  if (responses.headD []).length ≠ outcomes.length then
    .error (.valueError "Responses and outcomes have unequal lengths")
  else .ok ()

/-! ## Simulation: parameter sourcing and expansion (`DMModel.simulate`,
model.py lines 669-952) and response-noise injection (`_add_noise`). -/

/-- Python `d.values()` on a possibly-`None` dictionary: attribute access on
`None` raises `AttributeError`. -/
def py_dict_values {β : Type} : Option (List (String × β)) → Except PyErr (List β)
  | none => .error (.attributeError "NoneType object has no attribute values")
  | some d => .ok (d.map Prod.snd)

/-- What the head of `simulate` establishes before parameter expansion:
the simulated learning/observation parameter-value dictionaries, whether
they came from a fit, and the effective subject count. -/
structure SimParamSetup where
  sim_learning_parameters : List (String × List ℚ)
  sim_observation_parameters : List (String × List ℚ)
  params_from_fit : Bool
  n_subjects : Nat
deriving DecidableEq

/-- The parameter-sourcing head of `DMModel.simulate` (model.py lines
702-766).  Arguments mirror the method's inputs and the model state it
reads: the optional caller-supplied dictionaries, the `fit_complete` flag,
the most recent fit's per-parameter means (`self.fit_values`), the declared
learning-parameter names and prior means, and the fitted run/subject
counts.  The from-fit branch repeats each fitted mean across runs
(`np.repeat(v, n_runs)`) and falls back to the declared prior mean repeated
`n_runs * n_subjects` times for parameters without a fitted value; the
observation-parameter dictionary is handled symmetrically in the source and
is not modelled.  After either branch, line 763 evaluates
`learning_parameters.values()` on the *argument* (not on the dictionaries
just built), which on the from-fit path is `None`. -/
def simulate_head (learning_parameters : Option (List (String × List ℚ)))
    (observation_parameters : Option (List (String × List ℚ)))
    (fit_complete : Bool) (fit_values : List (String × ℚ))
    (learning_parameter_names : List String)
    (learning_parameter_means : List (String × ℚ))
    (n_runs n_subjects_model : Nat) (outcomes_arg : Option (List ℚ))
    (n_subjects_arg runs_per_subject : Nat) : Except PyErr SimParamSetup :=
  if learning_parameters.isNone ∧ fit_complete = false then
    .error (.valueError "No parameter values provided and model has not been fit. Must explicitly provide parameter values for simulation or fit the model first")
  else
    let setup : Except PyErr SimParamSetup :=
      match learning_parameters with
      | some lp =>
        if outcomes_arg.isNone then
          .error (.valueError "Outcomes are not in the correct format")
        else
          .ok { sim_learning_parameters := lp
                sim_observation_parameters := observation_parameters.getD []
                params_from_fit := false
                n_subjects := n_subjects_arg * runs_per_subject }
      | none =>
        let from_fit := (fit_values.filter (fun pv => learning_parameter_names.contains pv.1)).map
          (fun pv => (pv.1, List.replicate n_runs pv.2))
        let missing := learning_parameter_names.filter
          (fun p => ¬ (fit_values.map Prod.fst).contains p)
        let from_means := missing.map (fun p =>
          (p, ((learning_parameter_means.filter (fun q => q.1 = p)).map Prod.snd).flatMap
                (fun m => List.replicate (n_runs * n_subjects_model) m)))
        .ok { sim_learning_parameters := from_fit ++ from_means
              sim_observation_parameters := []
              params_from_fit := true
              n_subjects := n_subjects_model }
    match setup with
    | .error e => .error e
    | .ok s =>
      match py_dict_values learning_parameters with
      | .error e => .error e
      | .ok vals =>
        let _single_parameter_values := ¬ vals.any (fun v => v.length > 1)
        .ok s

/-- `itertools.product` over the supplied value lists, in Python's order
(the first list varies slowest). -/
def cartesian_product {β : Type} : List (List β) → List (List β)
  | [] => [[]]
  | l :: ls => l.flatMap (fun x => (cartesian_product ls).map (fun c => x :: c))

/-- `np.repeat(rows, n, axis=0)`: each row repeated `n` times consecutively. -/
def repeat_rows {β : Type} (n : Nat) (rows : List (List β)) : List (List β) :=
  rows.flatMap (List.replicate n)

/-- The parameter-expansion step of `DMModel.simulate` (model.py lines
783-796).  With `combinations=True`: the Cartesian product of the supplied
value lists, each row then replicated `n_subjects` times.  Otherwise: every
list must have the first list's length (else the configuration
`ValueError`), row `i` pairs the `i`-th value of every list, and the
`n_subjects` replication is skipped when the values came from a fit. -/
def create_parameter_combinations (parameter_values : List (List ℚ)) (n_subjects : Nat)
    (combinations params_from_fit : Bool) : Except PyErr (List (List ℚ)) :=
  if combinations then
    .ok (repeat_rows n_subjects (cartesian_product parameter_values))
  else if ¬ parameter_values.all (fun i => i.length = (parameter_values.headD []).length) then
    .error (.valueError "Each parameter should have the same number of values")
  else
    let pairs := (List.range (parameter_values.headD []).length).map
      (fun i => parameter_values.map (fun j => j.getD i 0))
    .ok (if params_from_fit then pairs else repeat_rows n_subjects pairs)

/-- `_add_noise` (model.py lines 95-102), with the Gaussian draw
`np.random.normal(mean, sd, timeseries.shape)` replaced by an arbitrary
realization `noise` of the same length: add the noise elementwise, then set
entries above `upper_bound` to `upper_bound`, then entries below
`lower_bound` to `lower_bound`. -/
def add_noise (timeseries noise : List ℚ) (lower_bound upper_bound : ℚ) : List ℚ :=
  let noisy := (timeseries.zip noise).map (fun p => p.1 + p.2)
  let clipped_high := noisy.map (fun x => if x > upper_bound then upper_bound else x)
  clipped_high.map (fun x => if x < lower_bound then lower_bound else x)

/-! ## Parameter binding (`utils.generate_pymc_distribution`, lines 20-114,
and `DMModel._create_model` / `DMModel.fit`, model.py lines 316-461). -/

/-- The location/scale arguments a PyMC distribution is constructed with:
either a plain numeric value, or (in hierarchical mode) a nested group-level
hyper-prior. -/
inductive HyperParam : Type where
  | val (x : Option ℚ)
  | groupMuBoundedNormal (lower upper : Option ℚ) (mu : ℚ) (sd : Option ℚ)
  | groupMuNormal (mu : ℚ) (sd : Option ℚ)
  | groupSdUniform (lower upper : ℚ)
deriving DecidableEq

/-- The concrete prior/placeholder bound to a parameter: which PyMC
constructor `generate_pymc_distribution` invoked and with which arguments
(fixed parameters become the constant array `np.ones(n_subjects) * mean`).
The `backward`/`forward` transform handles the bounded constructors also
attach are not modelled. -/
inductive PyMCDist : Type where
  | fixedVals (vals : List ℚ)
  | boundedNormal (lower upper : Option ℚ) (mu sd : HyperParam) (shape : Option Nat)
  | normalDist (mu sd : HyperParam) (shape : Option Nat) (transform : Option String)
  | uniformDist (lower upper : Option ℚ) (shape : Option Nat)
  | flatDist (shape : Option Nat) (transform : Option String)
deriving DecidableEq

/-- The `Parameter` class (model.py lines 1230-1261), after construction:
`fixed` is set by `__init__` iff the distribution is `'fixed'`, and
`pymc_distribution` is the attribute `generate_pymc_distribution` adds when
the parameter is bound. -/
structure Parameter where
  name : String
  distribution : String
  lower_bound : Option ℚ := none
  upper_bound : Option ℚ := none
  mean : ℚ := 1
  variance : Option ℚ := none
  dynamic : Bool := false
  fixed : Bool := false
  transform_method : Option String := none
  pymc_distribution : Option PyMCDist := none
deriving DecidableEq

/-- The MLE override block of `generate_pymc_distribution` (utils.py lines
31-42): a parameter whose distribution is not uniform, flat or fixed is
rewritten to uniform when both bounds are present and to flat otherwise. -/
def mle_rewrite (p : Parameter) : Parameter :=
  if p.distribution ≠ "uniform" ∧ p.distribution ≠ "flat" ∧ p.distribution ≠ "fixed" then
    if p.upper_bound.isSome ∧ p.lower_bound.isSome then { p with distribution := "uniform" }
    else { p with distribution := "flat" }
  else p

/-- The prior-construction body of `generate_pymc_distribution` (utils.py
lines 44-114), after the MLE override has been applied: fixed parameters
become a constant array; hierarchical binding of a normal parameter nests
group-level hyper-priors (and requires at least two subjects); the shape is
`n_subjects` when there is more than one subject.  A distribution string
matching no branch leaves `pymc_distribution` unset, exactly as in the
source (where `_initialise_parameters` later raises `AttributeError`). -/
def generate_pymc_core (p : Parameter) (n_subjects : Nat) (hierarchical : Bool) :
    Except PyErr Parameter :=
  if p.fixed then
    .ok { p with pymc_distribution := some (.fixedVals (List.replicate n_subjects p.mean)) }
  else if hierarchical ∧ n_subjects < 2 then
    .error (.valueError "Hierarchical parameters only possible with more than 1 subject")
  else if p.distribution = "normal" ∧ p.lower_bound.isSome ∧ p.upper_bound.isSome then
    .ok { p with pymc_distribution := some (
      if hierarchical then
        .boundedNormal p.lower_bound p.upper_bound
          (.groupMuBoundedNormal p.lower_bound p.upper_bound p.mean p.variance)
          (.groupSdUniform 0 100) (some n_subjects)
      else if n_subjects > 1 then
        .boundedNormal p.lower_bound p.upper_bound (.val (some p.mean)) (.val p.variance)
          (some n_subjects)
      else
        .boundedNormal p.lower_bound p.upper_bound (.val (some p.mean)) (.val p.variance) none) }
  else if p.distribution = "normal" ∧ p.lower_bound.isSome then
    .ok { p with pymc_distribution := some (
      if hierarchical then
        .boundedNormal p.lower_bound none
          (.groupMuBoundedNormal p.lower_bound none p.mean p.variance)
          (.groupSdUniform 0 100) (some n_subjects)
      else if n_subjects > 1 then
        .boundedNormal p.lower_bound none (.val (some p.mean)) (.val p.variance) (some n_subjects)
      else
        .boundedNormal p.lower_bound none (.val (some p.mean)) (.val p.variance) none) }
  else if p.distribution = "normal" then
    .ok { p with pymc_distribution := some (
      if hierarchical then
        .normalDist (.groupMuNormal p.mean p.variance) (.groupSdUniform 0 100)
          (some n_subjects) p.transform_method
      else if n_subjects > 1 then
        .normalDist (.val (some p.mean)) (.val p.variance) (some n_subjects) p.transform_method
      else
        .normalDist (.val (some p.mean)) (.val p.variance) none p.transform_method) }
  else if p.distribution = "uniform" then
    .ok { p with pymc_distribution := some (
      if hierarchical ∨ n_subjects > 1 then
        .uniformDist p.lower_bound p.upper_bound (some n_subjects)
      else .uniformDist p.lower_bound p.upper_bound none) }
  else if p.distribution = "flat" then
    .ok { p with pymc_distribution := some (
      if hierarchical ∨ n_subjects > 1 then .flatDist (some n_subjects) p.transform_method
      else .flatDist none none) }
  else .ok p

/-- `utils.generate_pymc_distribution` (lines 20-114): the MLE override
followed by prior construction. -/
def generate_pymc_distribution (p : Parameter) (n_subjects : Nat)
    (hierarchical mle : Bool) : Except PyErr Parameter :=
  generate_pymc_core (if mle then mle_rewrite p else p) n_subjects hierarchical

/-- Written from the spec's words (spec section 4.1): "MLE mode rewrites any
non-uniform/non-flat/non-fixed parameter to uniform (if both bounds
present) or flat (otherwise) before binding".  To be compared with the
source-derived `mle_rewrite`. -/
def mle_flatten_spec (p : Parameter) : Parameter :=
  if p.distribution = "uniform" ∨ p.distribution = "flat" ∨ p.distribution = "fixed" then p
  else if p.upper_bound.isSome ∧ p.lower_bound.isSome then { p with distribution := "uniform" }
  else { p with distribution := "flat" }

/-- The binding loop of `_initialise_parameters` (model.py lines 62-64):
each parameter in order is handed to `generate_pymc_distribution`; the
first error aborts the loop. -/
def bind_all : List Parameter → Nat → Bool → Bool → Except PyErr (List Parameter)
  | [], _, _, _ => .ok []
  | p :: ps, n_subjects, hierarchical, mle =>
    match generate_pymc_distribution p n_subjects hierarchical mle with
    | .error e => .error e
    | .ok q =>
      match bind_all ps n_subjects hierarchical mle with
      | .error e => .error e
      | .ok qs => .ok (q :: qs)

/-- Does a bound parameter carry a hierarchical (group-level) prior? -/
def HyperParam.isGroup : HyperParam → Bool
  | .val _ => false
  | _ => true

/-- Whether any argument of the bound distribution is a group-level
hyper-prior. -/
def PyMCDist.hasGroupPrior : PyMCDist → Bool
  | .fixedVals _ => false
  | .boundedNormal _ _ mu sd _ => mu.isGroup || sd.isGroup
  | .normalDist mu sd _ _ => mu.isGroup || sd.isGroup
  | .uniformDist _ _ _ => false
  | .flatDist _ _ => false

/-- Whether a binding attempt produced a distribution with group-level
hyper-priors (`false` for errors and unbound parameters). -/
def bound_has_group_prior : Except PyErr Parameter → Bool
  | .ok q => match q.pymc_distribution with
    | some d => d.hasGroupPrior
    | none => false
  | .error _ => false

/-- `DMModel._create_model` (model.py lines 316-348) constructs the
`_PyMCModel` with the literal argument `hierarchical=False` (line 337);
`fit`'s own `hierarchical` argument is not passed to model construction.
The `hierarchical_arg` parameter mirrors `fit`'s signature to make that
explicit. -/
def fit_model_construction (params : List Parameter) (n_subjects : Nat) (mle : Bool)
    (_hierarchical_arg : Bool) : Except PyErr (List Parameter) :=
  bind_all params n_subjects false mle

/-- The MLE/MAP point-estimation dispatch of `DMModel.fit` (model.py lines
415-449): method `'MLE'`/`'mle'` sets `mle=True` for model creation and then
invokes the same `_fit_MAP` estimator used for `'MAP'`/`'map'` (line 445:
"MAP method is used for MLE - only difference is the absence of priors when
setting up parameters").  The external gradient optimizer `find_MAP` is an
out-of-scope collaborator (spec section 1) and is therefore a parameter. -/
def fit_point_estimate {α : Type} (find_map : List Parameter → List ℚ → α)
    (fit_method : String) (params : List Parameter) (n_subjects : Nat)
    (data : List ℚ) : Except PyErr α :=
  let mle := fit_method = "MLE" ∨ fit_method = "mle"
  if fit_method = "MLE" ∨ fit_method = "mle" ∨ fit_method = "MAP" ∨ fit_method = "map" then
    match fit_model_construction params n_subjects (if mle then true else false) false with
    | .error e => .error e
    | .ok bound => .ok (find_map bound data)
  else .error (.valueError "Invalid fitting method provided")

/-! ## The objective (`_PyMCModel.logp`, model.py lines 214-236) and fit
statistics (`utils.model_fit`, lines 132-142; `_fit_MAP` / `_fit_MCMC` /
`_fit_variational`, model.py lines 465-656). -/

/-- Modelled from the spec: `log_likelihood` is imported by model.py (line
17) from `DMpy.utils` but absent from src/DMpy/utils.py.  Spec section 4.4:
"log-likelihood of observed responses under `probabilities` (treated as
Bernoulli/continuous response probabilities)", embedded as the Bernoulli
log-likelihood of each response under the matching probability. -/
noncomputable def log_likelihood (responses prob : List ℝ) : ℝ :=
  ((responses.zip prob).map
    (fun rp => rp.1 * Real.log rp.2 + (1 - rp.1) * Real.log (1 - rp.2))).sum

/-- The mean of a list of reals (junk on the empty list, like `np.mean`'s
`nan`). -/
noncomputable def list_mean (xs : List ℝ) : ℝ := xs.sum / xs.length

/-- Modelled from the spec: `r2` is imported by model.py (line 18) from
`DMpy.utils` but absent from src/DMpy/utils.py.  Spec section 4.4:
"coefficient of determination between responses and probabilities",
embedded as the squared Pearson correlation of the two series. -/
noncomputable def r2 (x y : List ℝ) : ℝ :=
  let mx := list_mean x
  let my := list_mean y
  let sxy := ((x.zip y).map (fun p => (p.1 - mx) * (p.2 - my))).sum
  let sxx := (x.map (fun a => (a - mx) ^ 2)).sum
  let syy := (y.map (fun b => (b - my) ^ 2)).sum
  sxy ^ 2 / (sxx * syy)

/-- The objective dispatch of `_PyMCModel.logp` (model.py lines 227-234),
taking the probability sequence as given (the claims quantify over
responses/probabilities pairs): method `'ll'` is the log-likelihood,
`'r2'` is the coefficient of determination scaled by 10000, and any other
method raises the configuration `ValueError`. -/
noncomputable def logp_dispatch (logp_method : String) (responses prob : List ℝ) :
    Except PyErr ℝ :=
  if logp_method = "ll" then .ok (log_likelihood responses prob)
  else if logp_method = "r2" then .ok (r2 responses prob * 10000)
  else .error (.valueError "Invalid likelihood function specified")

/-- What an estimation path records on the model object when it finishes:
the fitted values and the three fit statistics (each `none` when the path
does not compute it). -/
structure FitRecord where
  fit_values : List (String × ℝ)
  fit_complete : Bool
  log_likelihood : Option ℝ
  BIC : Option ℝ
  AIC : Option ℝ

/-- `utils.model_fit` (lines 132-142): log likelihood at the fitted values,
`BIC = len(vars) * log(len(outcome)) - 2 * ll` and
`AIC = 2 * (len(vars) - ll)`. -/
noncomputable def model_fit (logp : List (String × ℝ) → ℝ) (fit_values : List (String × ℝ))
    (vars : List String) (outcome : List ℝ) : ℝ × ℝ × ℝ :=
  let ll := logp fit_values
  (ll, (vars.length : ℝ) * Real.log (outcome.length : ℝ) - 2 * ll,
   2 * ((vars.length : ℝ) - ll))

/-- `DMModel._fit_MAP` (model.py lines 585-656): records the `find_MAP`
estimate and computes the three fit statistics via `model_fit` (line 651),
called with the raw `map_estimate`, the model's variables and the outcome
array.  (The back-transformation of displayed values through each
parameter's `backward` handle is not modelled; `model_fit` receives the raw
estimate exactly as in the source.)  The external optimizer's result is the
`map_estimate` argument. -/
noncomputable def fit_MAP_record (map_estimate : List (String × ℝ))
    (logp : List (String × ℝ) → ℝ) (vars : List String) (outcome : List ℝ) : FitRecord :=
  let s := model_fit logp map_estimate vars outcome
  { fit_values := map_estimate
    fit_complete := true
    log_likelihood := some s.1
    BIC := some s.2.1
    AIC := some s.2.2 }

/-- `DMModel._fit_MCMC` (model.py lines 465-521): records the posterior
means and sets `fit_complete`, but its `model_fit` call is commented out
(line 518), so no log-likelihood/BIC/AIC is computed or recorded. -/
def fit_MCMC_record (sample_means : List (String × ℝ)) : FitRecord :=
  { fit_values := sample_means
    fit_complete := true
    log_likelihood := none
    BIC := none
    AIC := none }

/-- `DMModel._fit_variational` (model.py lines 524-582): records the
posterior means and sets `fit_complete`; its `model_fit` call is likewise
commented out (line 580). -/
def fit_variational_record (sample_means : List (String × ℝ)) : FitRecord :=
  { fit_values := sample_means
    fit_complete := true
    log_likelihood := none
    BIC := none
    AIC := none }

/-- The estimation dispatch of `DMModel.fit` (model.py lines 443-461), with
each path reduced to the record it leaves on the model: an unknown method
string raises the configuration `ValueError` listing the allowed methods. -/
noncomputable def run_fit_record (fit_method : String) (estimate : List (String × ℝ))
    (logp : List (String × ℝ) → ℝ) (vars : List String) (outcome : List ℝ) :
    Except PyErr FitRecord :=
  if fit_method = "MLE" ∨ fit_method = "mle" then
    .ok (fit_MAP_record estimate logp vars outcome)
  else if fit_method = "MAP" ∨ fit_method = "map" then
    .ok (fit_MAP_record estimate logp vars outcome)
  else if fit_method = "Variational" ∨ fit_method = "variational" then
    .ok (fit_variational_record estimate)
  else if fit_method = "MCMC" ∨ fit_method = "mcmc" then
    .ok (fit_MCMC_record estimate)
  else .error (.valueError "Invalid fitting method provided")

/-- The warning/printing selection at the head of `_fit_MCMC` (model.py
lines 477-486), the only place `fit`'s `hierarchical` argument reaches on
the MCMC path, paired with the record the path produces. -/
def fit_MCMC_run (hierarchical : Bool) (n_subjects : Nat)
    (sample_means : List (String × ℝ)) : List String × FitRecord :=
  let messages :=
    if hierarchical ∧ n_subjects < 2 then
      ["Warning: Hierarchical model fitting only possible with more than one subject, fitting individual subject"]
    else if hierarchical ∧ n_subjects > 1 then
      ["Performing hierarchical model fitting"]
    else if ¬hierarchical ∧ n_subjects > 1 then
      ["Performing non-hierarchical model fitting"]
    else []
  (messages, fit_MCMC_record sample_means)

/-- The corresponding selection in `_fit_variational` (model.py lines
537-546). -/
def fit_variational_run (hierarchical : Bool) (n_subjects : Nat)
    (sample_means : List (String × ℝ)) : List String × FitRecord :=
  let messages :=
    if hierarchical ∧ n_subjects < 2 then
      ["Warning: Hierarchical model fitting only possible with more than one subject, fitting individual subject"]
    else if hierarchical ∧ n_subjects > 1 then
      ["Performing hierarchical model fitting"]
    else if ¬hierarchical ∧ n_subjects > 1 then
      ["Performing non-hierarchical model fitting"]
    else []
  (messages, fit_variational_record sample_means)

/-! ## Helper lemmas shared by the claim theorems. -/

theorem mle_rewrite_eq_spec (p : Parameter) : mle_rewrite p = mle_flatten_spec p := by
  unfold mle_rewrite mle_flatten_spec
  by_cases h1 : p.distribution = "uniform" <;> by_cases h2 : p.distribution = "flat" <;>
    by_cases h3 : p.distribution = "fixed" <;> simp_all

theorem generate_mle_flatten (p : Parameter) (n : Nat) (h : Bool) :
    generate_pymc_distribution p n h true
      = generate_pymc_distribution (mle_flatten_spec p) n h false := by
  simp [generate_pymc_distribution, mle_rewrite_eq_spec]

theorem mle_flatten_spec_id (p : Parameter)
    (h : p.distribution = "uniform" ∨ p.distribution = "flat") : mle_flatten_spec p = p := by
  unfold mle_flatten_spec
  rcases h with h | h <;> simp [h]

theorem bind_all_mle_flatten (params : List Parameter) (n : Nat) :
    bind_all params n false true = bind_all (params.map mle_flatten_spec) n false false := by
  induction params with
  | nil => rfl
  | cons p ps ih => simp [bind_all, generate_mle_flatten, ih]

theorem generate_core_no_group_prior (q : Parameter) (n : Nat)
    (hq : q.pymc_distribution = none) :
    bound_has_group_prior (generate_pymc_core q n false) = false := by
  unfold generate_pymc_core
  split_ifs <;> simp_all [bound_has_group_prior, PyMCDist.hasGroupPrior, HyperParam.isGroup]

theorem mle_rewrite_pymc_distribution (p : Parameter) :
    (mle_rewrite p).pymc_distribution = p.pymc_distribution := by
  unfold mle_rewrite; split_ifs <;> rfl

theorem generate_no_group_prior (p : Parameter) (n : Nat) (mle : Bool)
    (hp : p.pymc_distribution = none) :
    bound_has_group_prior (generate_pymc_distribution p n false mle) = false := by
  unfold generate_pymc_distribution
  apply generate_core_no_group_prior
  cases mle <;> simp [mle_rewrite_pymc_distribution, hp]

theorem repeat_rows_length {β : Type} (n : Nat) (rows : List (List β)) :
    (repeat_rows n rows).length = rows.length * n := by
  induction rows with
  | nil => simp [repeat_rows]
  | cons r rs ih =>
    simp only [repeat_rows, List.flatMap_cons, List.length_append, List.length_replicate,
      List.length_cons] at *
    rw [ih]; ring

theorem cartesian_product_length {β : Type} (ls : List (List β)) :
    (cartesian_product ls).length = (ls.map List.length).prod := by
  induction ls with
  | nil => rfl
  | cons l ls ih =>
    induction l with
    | nil => simp [cartesian_product]
    | cons a l ihl =>
      simp only [cartesian_product, List.flatMap_cons, List.length_append, List.length_map] at *
      rw [ihl, ih]
      simp [List.map_cons, List.prod_cons, Nat.succ_mul]
      ring

/-! ## The claim theorems. -/

/-- **C1** (code_bug evidence).  The claim says the loader supplies exactly
the five-component tuple `fit` unpacks, and that `fit` then fails with the
length-mismatch error on unequal trial dimensions.  In the source the two
halves disagree: `load_data` (utils.py line 169) takes one positional
parameter and returns the three-tuple `(subjects, data, sims)` (line 209),
while `fit` (model.py line 384) calls it with the extra `exclude` keyword
and unpacks five values.  Hence: (i) the loading stage of every fit call
raises `TypeError` at the call itself; (ii) even calling the bare loader,
the five-way unpacking never succeeds; (iii) whenever `load_data` succeeds
its tuple has exactly three components.  The length guard
(`check_response_outcome_lengths`, model.py lines 412-414) sits after this
stage and is therefore unreachable. -/
theorem c1_fit_loader_contract (d : DataFile) :
    fit_load_stage d
      = .error (.typeError "load_data() got an unexpected keyword argument exclude")
    ∧ exOk ((load_data d).bind fit_unpack5) = false
    ∧ ((load_data d).map List.length = .ok 3 ∨ exOk (load_data d) = false) := by
  refine ⟨rfl, ?_, ?_⟩
  · unfold load_data
    split_ifs <;> rfl
  · unfold load_data
    split_ifs <;> simp [exOk, Except.map]

/-- **C2** (code_bug evidence).  For the one-dynamic-parameter model
`f(o, t, v) = (v + o,)` seeded with 0 on outcomes `[1, 2, 3]`, the
recurrence evaluation returns `[1, 1, 3]` and not the claimed `[0, 1, 3]`:
the trial-0 record produced by the wrapped initial model is `args[1]` — the
constant 1 of the `T.ones_like` placeholder sequence, because the two
sequence slices come before the carried state in the scan's argument
order — rather than the carried seed 0. -/
theorem c2_fold_trial0_record :
    get_value c2_learning_model 1 1 [0] [] [1, 2, 3] = .ok [[1, 1, 3]]
    ∧ get_value c2_learning_model 1 1 [0] [] [1, 2, 3] ≠ .ok [[0, 1, 3]] := by
  constructor <;> decide

/-- **C3** (code_bug evidence).  The model `f(o, t, v, w) = (v + o, w + o)`
re-enters two outputs by its return convention but is declared with one
dynamic parameter (seed 5) and `w` misdeclared as static (value 10): the
declared dynamic count (1) differs from the reused-output count (2).  Yet
because the total argument count and the total return count still match,
the recurrence evaluates with no configuration error and produces numeric
output — the claimed failure never happens. -/
theorem c3_arity_mismatch_not_detected :
    get_value c3_learning_model 2 1 [5] [10] [1, 2, 3] = .ok [[1, 6, 8]]
    ∧ exOk (get_value c3_learning_model 2 1 [5] [10] [1, 2, 3]) = true := by
  constructor <;> decide

/-- **C4** (confirmed).  The objective with method `'ll'` equals the
log-likelihood of the responses under the probabilities, with `'r2'` it
equals the coefficient of determination multiplied by exactly 10000, and
for any other method string it raises the configuration error. -/
theorem c4_objective_dispatch (responses prob : List ℝ) (m : String)
    (h1 : m ≠ "ll") (h2 : m ≠ "r2") :
    logp_dispatch "ll" responses prob = .ok (log_likelihood responses prob)
    ∧ logp_dispatch "r2" responses prob = .ok (r2 responses prob * 10000)
    ∧ logp_dispatch m responses prob
        = .error (.valueError "Invalid likelihood function specified") := by
  refine ⟨by simp [logp_dispatch], by simp [logp_dispatch], by simp [logp_dispatch, h1, h2]⟩

theorem c4_objective_dispatch_witness :
    logp_dispatch "ll" [] [] = .ok (log_likelihood [] [])
    ∧ logp_dispatch "r2" [] [] = .ok (r2 [] [] * 10000)
    ∧ logp_dispatch "foo" [] []
        = .error (.valueError "Invalid likelihood function specified") :=
  c4_objective_dispatch [] [] "foo" (by decide) (by decide)

/-- **C5** (confirmed).  Fitting with `'MLE'` produces the same point
estimate as fitting with `'MAP'` on the same data whenever every prior is
already uniform or flat; and in general the MLE path equals the MAP path
run on the parameters with their priors rewritten by the spec's flattening
rule (uniform when both bounds are present, flat otherwise) — for any
external point optimizer, because both paths build the model the same way
and invoke the same estimator. -/
theorem c5_mle_is_map_under_flat_priors {α : Type}
    (find_map : List Parameter → List ℚ → α) (params : List Parameter)
    (n_subjects : Nat) (data : List ℚ)
    (hflat : ∀ p ∈ params, p.distribution = "uniform" ∨ p.distribution = "flat") :
    fit_point_estimate find_map "MLE" params n_subjects data
      = fit_point_estimate find_map "MAP" params n_subjects data
    ∧ ∀ params' : List Parameter,
        fit_point_estimate find_map "MLE" params' n_subjects data
          = fit_point_estimate find_map "MAP" (params'.map mle_flatten_spec) n_subjects data := by
  have key : ∀ ps : List Parameter,
      fit_point_estimate find_map "MLE" ps n_subjects data
        = fit_point_estimate find_map "MAP" (ps.map mle_flatten_spec) n_subjects data := by
    intro ps
    simp [fit_point_estimate, fit_model_construction, bind_all_mle_flatten]
  refine ⟨?_, key⟩
  have hid : params.map mle_flatten_spec = params := by
    calc params.map mle_flatten_spec = params.map id :=
          List.map_congr_left (fun p hp => mle_flatten_spec_id p (hflat p hp))
      _ = params := List.map_id params
  rw [key params, hid]

def c5_example_parameter : Parameter :=
  { name := "alpha", distribution := "uniform", lower_bound := some 0, upper_bound := some 1 }

theorem c5_mle_is_map_witness :
    (fit_point_estimate (fun bound _ => bound) "MLE" [c5_example_parameter] 2 []
      = fit_point_estimate (fun bound _ => bound) "MAP" [c5_example_parameter] 2 [])
    ∧ ∀ params' : List Parameter,
        fit_point_estimate (fun bound _ => bound) "MLE" params' 2 []
          = fit_point_estimate (fun bound _ => bound) "MAP" (params'.map mle_flatten_spec) 2 [] :=
  c5_mle_is_map_under_flat_priors (fun bound _ => bound) [c5_example_parameter] 2 []
    (by decide)

/-- **C6** (confirmed).  With `combinations=True` two parameters with 3 and
4 supplied values yield exactly 12 rows before subject replication and
`12 * n_subjects` after it; with `combinations=False` two length-5 lists
yield exactly 5 paired rows with the replication skipped for fit-derived
values; and lists of differing lengths raise the configuration error. -/
theorem c6_parameter_expansion (v1 v2 w1 w2 u1 u2 : List ℚ) (n : Nat) (pf pf2 : Bool)
    (h1 : v1.length = 3) (h2 : v2.length = 4)
    (h5 : w1.length = 5) (h6 : w2.length = 5) (hu : u1.length ≠ u2.length) :
    (cartesian_product [v1, v2]).length = 12
    ∧ (∃ rows, create_parameter_combinations [v1, v2] n true pf = .ok rows
        ∧ rows.length = 12 * n)
    ∧ (∃ pairs, create_parameter_combinations [w1, w2] n false true = .ok pairs
        ∧ pairs.length = 5)
    ∧ create_parameter_combinations [u1, u2] n false pf2
        = .error (.valueError "Each parameter should have the same number of values") := by
  have hc : (cartesian_product [v1, v2]).length = 12 := by
    simp [cartesian_product_length, h1, h2]
  refine ⟨hc, ⟨_, rfl, ?_⟩, ?_, ?_⟩
  · rw [repeat_rows_length, hc]
  · have heq : create_parameter_combinations [w1, w2] n false true
        = .ok ((List.range ([w1, w2].headD []).length).map
            (fun i => [w1, w2].map (fun j => j.getD i 0))) := by
      simp [create_parameter_combinations, h5, h6]
    exact ⟨_, heq, by simp [h5]⟩
  · have hne : u2.length ≠ u1.length := fun hh => hu hh.symm
    simp [create_parameter_combinations, hne]

theorem c6_parameter_expansion_witness :
    (cartesian_product [[(0:ℚ), 1, 2], [0, 1, 2, 3]]).length = 12
    ∧ (∃ rows, create_parameter_combinations [[(0:ℚ), 1, 2], [0, 1, 2, 3]] 2 true false = .ok rows
        ∧ rows.length = 12 * 2)
    ∧ (∃ pairs,
        create_parameter_combinations [[(0:ℚ), 1, 2, 3, 4], [5, 6, 7, 8, 9]] 2 false true = .ok pairs
        ∧ pairs.length = 5)
    ∧ create_parameter_combinations [[(0:ℚ)], []] 2 false false
        = .error (.valueError "Each parameter should have the same number of values") :=
  c6_parameter_expansion [(0:ℚ), 1, 2] [0, 1, 2, 3] [0, 1, 2, 3, 4] [5, 6, 7, 8, 9] [0] [] 2
    false false rfl rfl rfl rfl (by decide)

/-- **C7** (amended).  The MAP path (and the MLE path, which is the same
estimator) records `ll`, `BIC = k * ln n - 2 * ll` and `AIC = 2 * (k - ll)`
with `k` the variable count and `n` the outcome count; the MCMC and
variational paths complete without recording any of the three statistics
(their `model_fit` calls are commented out in the source). -/
theorem c7_fit_statistics_amended (est : List (String × ℝ)) (logp : List (String × ℝ) → ℝ)
    (vars : List String) (outcome : List ℝ) :
    run_fit_record "MAP" est logp vars outcome = .ok
      { fit_values := est, fit_complete := true,
        log_likelihood := some (logp est),
        BIC := some ((vars.length : ℝ) * Real.log (outcome.length : ℝ) - 2 * logp est),
        AIC := some (2 * ((vars.length : ℝ) - logp est)) }
    ∧ run_fit_record "MLE" est logp vars outcome = run_fit_record "MAP" est logp vars outcome
    ∧ run_fit_record "MCMC" est logp vars outcome
        = .ok { fit_values := est, fit_complete := true,
                log_likelihood := none, BIC := none, AIC := none }
    ∧ run_fit_record "Variational" est logp vars outcome
        = .ok { fit_values := est, fit_complete := true,
                log_likelihood := none, BIC := none, AIC := none } :=
  ⟨rfl, rfl, rfl, rfl⟩

/-- **C7** (counterexample to the claim as stated).  A successful MCMC fit
records none of log-likelihood, BIC, AIC, refuting "every successful fit,
regardless of method, computes and records" them. -/
theorem c7_fit_statistics_counterexample :
    ((run_fit_record "MCMC" [] (fun _ => 0) [] []).map
        (fun r => (r.log_likelihood, r.BIC, r.AIC))) = .ok (none, none, none)
    ∧ ¬ (∀ r : FitRecord, run_fit_record "MCMC" [] (fun _ => 0) [] [] = .ok r →
          (r.log_likelihood.isSome ∧ r.BIC.isSome ∧ r.AIC.isSome)) := by
  constructor
  · rfl
  · intro h
    have := h (fit_MCMC_record []) rfl
    simp [fit_MCMC_record] at this

/-- **C8** (code_bug evidence).  With no parameter values and no completed
fit, `simulate` raises the claimed configuration error; with caller-supplied
dictionaries it proceeds using them (`params_from_fit = false`, subject
count `n_subjects * runs_per_subject`).  But on the from-fit path — values
omitted after a completed fit — it raises `AttributeError` instead of
simulating, because line 763 reads `learning_parameters.values()` on the
`None` argument. -/
theorem c8_simulate_parameter_source (lp : List (String × List ℚ))
    (op : Option (List (String × List ℚ))) (fv : List (String × ℚ))
    (names : List String) (means : List (String × ℚ))
    (n_runs n_subj : Nat) (oc : List ℚ) (na rps : Nat) (fc : Bool) :
    simulate_head none op false fv names means n_runs n_subj (some oc) na rps
      = .error (.valueError "No parameter values provided and model has not been fit. Must explicitly provide parameter values for simulation or fit the model first")
    ∧ simulate_head (some lp) op fc fv names means n_runs n_subj (some oc) na rps
      = .ok { sim_learning_parameters := lp,
              sim_observation_parameters := op.getD [],
              params_from_fit := false,
              n_subjects := na * rps }
    ∧ simulate_head none op true fv names means n_runs n_subj (some oc) na rps
      = .error (.attributeError "NoneType object has no attribute values") := by
  refine ⟨rfl, ?_, rfl⟩
  simp [simulate_head, py_dict_values]

/-- **C9** (confirmed).  On the fit path the probabilistic model is built
with the hierarchical flag forced to `False` (model.py line 337), and a
parameter bound non-hierarchically never receives group-level hyper-priors,
whatever the MLE flag; the `hierarchical` argument of `fit` does not change
the constructed model, and in the MCMC and variational paths it selects
only the warning/printing messages, not the recorded result. -/
theorem c9_fit_path_never_hierarchical (p : Parameter) (n : Nat) (mle : Bool)
    (hp : p.pymc_distribution = none)
    (params : List Parameter) (n_subjects : Nat) (mle2 : Bool) (h1 h2 : Bool)
    (ns : Nat) (sm : List (String × ℝ)) :
    bound_has_group_prior (generate_pymc_distribution p n false mle) = false
    ∧ fit_model_construction params n_subjects mle2 h1
        = fit_model_construction params n_subjects mle2 h2
    ∧ (fit_MCMC_run h1 ns sm).2 = (fit_MCMC_run h2 ns sm).2
    ∧ (fit_variational_run h1 ns sm).2 = (fit_variational_run h2 ns sm).2 :=
  ⟨generate_no_group_prior p n mle hp, rfl, rfl, rfl⟩

def c9_example_parameter : Parameter :=
  { name := "alpha", distribution := "normal", lower_bound := some 0, upper_bound := some 1,
    mean := 1 / 2, variance := some 1 }

theorem c9_fit_path_never_hierarchical_witness :
    bound_has_group_prior (generate_pymc_distribution c9_example_parameter 3 false false) = false
    ∧ fit_model_construction [c9_example_parameter] 3 false true
        = fit_model_construction [c9_example_parameter] 3 false false
    ∧ (fit_MCMC_run true 3 []).2 = (fit_MCMC_run false 3 []).2
    ∧ (fit_variational_run true 3 []).2 = (fit_variational_run false 3 []).2 :=
  c9_fit_path_never_hierarchical c9_example_parameter 3 false rfl
    [c9_example_parameter] 3 false true false 3 []

/-- **C10** (confirmed).  For any timeseries, any realization of the added
noise, and bounds with `lower_bound ≤ upper_bound`, every element of the
array returned by the noise-injection helper lies within
`[lower_bound, upper_bound]`. -/
theorem c10_add_noise_bounds (timeseries noise : List ℚ) (lb ub : ℚ) (h : lb ≤ ub) :
    ∀ x ∈ add_noise timeseries noise lb ub, lb ≤ x ∧ x ≤ ub := by
  intro x hx
  unfold add_noise at hx
  simp only [List.mem_map] at hx
  obtain ⟨y, ⟨z, _hz, rfl⟩, rfl⟩ := hx
  set w := if z > ub then ub else z with hw
  have hwub : w ≤ ub := by
    rw [hw]
    split
    · exact le_refl ub
    · exact le_of_not_lt (by assumption)
  constructor
  · split
    · exact le_refl lb
    · exact le_of_not_lt (by assumption)
  · split
    · exact h
    · exact hwub

theorem c10_add_noise_bounds_witness :
    (0 : ℚ) ≤ 1 ∧ ∀ x ∈ add_noise [0] [0] 0 1, 0 ≤ x ∧ x ≤ 1 :=
  ⟨zero_le_one, c10_add_noise_bounds [0] [0] 0 1 zero_le_one⟩
